import Mathlib

/-!
Verification of the recurring-reminder core of the Reminder-V2 repository.

The embedding below translates the Python source into Lean:

* `DateTime` models a naive Python `datetime` at second granularity
  (the source never inspects microseconds in the logic under study);
  comparison is field-lexicographic, exactly as Python compares datetimes.
* `Event` models the SQLAlchemy `Event` row of `services/db/events.py`.
* `generate_instances` models `services/db/events.py:generate_instances`
  (the Instance Materializer): the database session is passed explicitly as a
  list of rows plus an autoincrement counter, `db.session.add` appends,
  the pre-insert existence query searches the session state (SQLAlchemy
  autoflush makes pending adds visible to queries), the cursor loop is
  fueled (Python's `while` may diverge, e.g. for a zero interval), and a
  Python `ValueError` from `date.replace` or an exhausted fuel surfaces as
  `Except.error`, in which case the caller keeps the original database
  (modelling `db.session.rollback()`).
* `enum_instances` is the same cursor loop stripped of database state: the
  candidate-timestamp enumeration (the spec's Recurrence Engine).
* The reminder sweeps of `reminder_sender.py` work at minute granularity on
  an absolute (UTC) minute timeline: a `SweepEvent` carries its owner's
  timezone as a fixed offset in minutes east of UTC (the source reads an
  IANA zone through the `user` relationship; the offset abstraction keeps
  the arithmetic `utc = local - offset` and every boundary comparison).
-/

/-- A naive Python `datetime` at second granularity. -/
structure DateTime where
  year : Nat
  month : Nat
  day : Nat
  hour : Nat
  minute : Nat
  second : Nat
deriving DecidableEq, Repr

/-- Python datetime `<`: field-lexicographic comparison. -/
def DateTime.ltb (a b : DateTime) : Bool :=
  if a.year ≠ b.year then decide (a.year < b.year)
  else if a.month ≠ b.month then decide (a.month < b.month)
  else if a.day ≠ b.day then decide (a.day < b.day)
  else if a.hour ≠ b.hour then decide (a.hour < b.hour)
  else if a.minute ≠ b.minute then decide (a.minute < b.minute)
  else decide (a.second < b.second)

/-- Python datetime `<=` (total order, so `a <= b` iff `not (b < a)`). -/
def DateTime.leb (a b : DateTime) : Bool :=
  !(DateTime.ltb b a)

theorem DateTime.ltb_iff (a b : DateTime) : (a.ltb b = true) ↔
    (a.year < b.year ∨ (a.year = b.year ∧
      (a.month < b.month ∨ (a.month = b.month ∧
        (a.day < b.day ∨ (a.day = b.day ∧
          (a.hour < b.hour ∨ (a.hour = b.hour ∧
            (a.minute < b.minute ∨ (a.minute = b.minute ∧
              a.second < b.second)))))))))) := by
  unfold DateTime.ltb
  split_ifs <;> simp <;> omega

theorem DateTime.ltb_eq_false_iff (a b : DateTime) :
    (a.ltb b = false) ↔ ¬ (a.ltb b = true) := by
  cases h : a.ltb b <;> simp

theorem DateTime.leb_iff (a b : DateTime) :
    (a.leb b = true) ↔ ¬ (b.ltb a = true) := by
  unfold DateTime.leb
  cases h : DateTime.ltb b a <;> simp

theorem DateTime.ltb_irrefl (a : DateTime) : a.ltb a = false := by
  rw [DateTime.ltb_eq_false_iff, DateTime.ltb_iff]
  omega

theorem DateTime.leb_refl (a : DateTime) : a.leb a = true := by
  rw [DateTime.leb_iff, DateTime.ltb_iff]
  omega

theorem DateTime.ltb_trans {a b c : DateTime}
    (h1 : a.ltb b = true) (h2 : b.ltb c = true) : a.ltb c = true := by
  rw [DateTime.ltb_iff] at h1 h2 ⊢
  omega

theorem DateTime.ltb_asymm {a b : DateTime}
    (h : a.ltb b = true) : b.ltb a = false := by
  rw [DateTime.ltb_eq_false_iff, DateTime.ltb_iff]
  rw [DateTime.ltb_iff] at h
  omega

/-- Gregorian leap-year test, as in Python's `calendar.isleap`. -/
def isLeapYear (y : Nat) : Bool :=
  y % 4 == 0 && (y % 100 != 0 || y % 400 == 0)

/-- Number of days in a month of the Gregorian calendar. -/
def daysInMonth (y m : Nat) : Nat :=
  if m = 2 then (if isLeapYear y then 29 else 28)
  else if m = 4 ∨ m = 6 ∨ m = 9 ∨ m = 11 then 30
  else 31

/-- One-day successor of a datetime (`timedelta(days=1)`), time-of-day kept. -/
def nextDay (d : DateTime) : DateTime :=
  if d.day < daysInMonth d.year d.month then { d with day := d.day + 1 }
  else if d.month < 12 then { d with month := d.month + 1, day := 1 }
  else { d with year := d.year + 1, month := 1, day := 1 }

/-- `d + timedelta(days=n)` for a non-negative day count. -/
def addDays (d : DateTime) : Nat → DateTime
  | 0 => d
  | n + 1 => addDays (nextDay d) n

theorem nextDay_ltb (d : DateTime) : d.ltb (nextDay d) = true := by
  unfold nextDay
  split_ifs <;> (rw [DateTime.ltb_iff]; simp)

theorem addDays_add (d : DateTime) (m n : Nat) :
    addDays d (m + n) = addDays (addDays d m) n := by
  induction m generalizing d with
  | zero => rw [Nat.zero_add]; rfl
  | succ k ih =>
      have h1 : k + 1 + n = (k + n) + 1 := by omega
      rw [h1]
      show addDays (nextDay d) (k + n) = addDays (addDays (nextDay d) k) n
      exact ih (nextDay d)

theorem addDays_ltb (d : DateTime) (n : Nat) :
    d.ltb (addDays d (n + 1)) = true := by
  induction n generalizing d with
  | zero => exact nextDay_ltb d
  | succ k ih =>
      show d.ltb (addDays (nextDay d) (k + 1)) = true
      exact DateTime.ltb_trans (nextDay_ltb d) (ih (nextDay d))

theorem addDays_ltb_of_lt (d : DateTime) {i j : Nat} (h : i < j) :
    (addDays d i).ltb (addDays d j) = true := by
  have h1 : j = i + ((j - i - 1) + 1) := by omega
  rw [h1, addDays_add]
  exact addDays_ltb (addDays d i) (j - i - 1)

theorem addDays_leb_of_le (d : DateTime) {i j : Nat} (h : i ≤ j) :
    (addDays d i).leb (addDays d j) = true := by
  rcases Nat.lt_or_ge i j with hlt | hge
  · rw [DateTime.leb_iff]
    have := addDays_ltb_of_lt d hlt
    intro hc
    have := DateTime.ltb_asymm this
    rw [this] at hc
    exact Bool.false_ne_true hc
  · have hij : i = j := by omega
    subst hij
    exact DateTime.leb_refl _

/-- The `frequency_type` enum of the `events` table. -/
inductive Freq where
  | daily
  | weekly
  | monthly
  | yearly
deriving DecidableEq, Repr

/-- One row of the `events` table (`services/db/events.py`, class `Event`).
`recurrence_interval` is a non-negative count of frequency units (the agent
layer only ever writes values ≥ 1; a zero value makes the Python cursor loop
diverge, which the fueled model surfaces as an error).  `created_at` and
`updated_at` carry the row timestamps (column defaults `datetime.utcnow`). -/
structure Event where
  id : Nat
  user_id : Nat
  description : String
  event_time : DateTime
  is_message_sent : Bool
  is_confirmed : Bool
  is_recurring : Bool
  recurrence_frequency : Option Freq
  recurrence_interval : Option Nat
  recurrence_end_date : Option DateTime
  recurrence_days_of_week : Option String
  parent_event_id : Option Nat
  created_at : DateTime
  updated_at : DateTime
deriving DecidableEq, Repr

/-- The session state: the persisted rows plus the autoincrement counter. -/
abbrev Db := List Event

/-- `Event.query.get(event_id)`: primary-key lookup. -/
def findEvent (db : Db) (eid : Nat) : Option Event :=
  db.find? (fun e => e.id == eid)

/-- Digit value of a character, `none` on a non-digit. -/
def digitVal (c : Char) : Option Nat :=
  if c.isDigit then some (c.toNat - 48) else none

/-- Decimal value of a digit string, `none` when any character is not a
digit (Python's `int` raises there; the claims only use digit strings). -/
def charsToNatAux : List Char → Nat → Option Nat
  | [], acc => some acc
  | c :: rest, acc =>
      match digitVal c with
      | none => none
      | some d => charsToNatAux rest (acc * 10 + d)

/-- `int(piece)` on one comma-separated piece. -/
def charsToNat? : List Char → Option Nat
  | [] => none
  | cs => charsToNatAux cs 0

/-- `s.split(',')` on the character list of the string. -/
def splitCommaAux : List Char → List Char → List (List Char)
  | [], acc => [acc.reverse]
  | c :: rest, acc =>
      if c = ',' then acc.reverse :: splitCommaAux rest []
      else splitCommaAux rest (c :: acc)

/-- `[int(d) for d in s.split(',')]` of the `recurrence_days_of_week`
string ("0,5" for Monday and Saturday). -/
def parseDaysOfWeek (s : String) : List Nat :=
  (splitCommaAux s.data []).filterMap charsToNat?

/-- Python `datetime.weekday()`: 0 = Monday .. 6 = Sunday (Sakamoto's
congruence shifted from the Sunday-based to the Monday-based convention). -/
def pyWeekday (d : DateTime) : Nat :=
  let y := if d.month < 3 then d.year - 1 else d.year
  let t := [0, 3, 2, 5, 0, 3, 5, 1, 4, 6, 2, 4]
  (y + y / 4 - y / 100 + y / 400 + t.getD (d.month - 1) 0 + d.day + 6) % 7

/-- The per-cursor match decision of `generate_instances`
(`services/db/events.py` lines 213-238).  An empty `recurrence_days_of_week`
string is falsy in Python, so it falls back to the anchor's weekday. -/
def shouldCreate (t : Event) (cur : DateTime) : Bool :=
  match t.recurrence_frequency with
  | some .daily => true
  | some .weekly =>
      let daysStr := t.recurrence_days_of_week.getD ""
      if daysStr ≠ "" then (parseDaysOfWeek daysStr).contains (pyWeekday cur)
      else pyWeekday cur == pyWeekday t.event_time
  | some .monthly => cur.day == t.event_time.day
  | some .yearly =>
      cur.month == t.event_time.month && cur.day == t.event_time.day
  | none => false

/-- `current_date.replace(hour=..., minute=..., second=...)` with the
template anchor's time-of-day (`services/db/events.py` lines 242-246). -/
def instanceTime (t : Event) (cur : DateTime) : DateTime :=
  { cur with
    hour := t.event_time.hour
    minute := t.event_time.minute
    second := t.event_time.second }

/-- Python's `date.replace(month=month+1)` (December wraps to January of the
next year): raises `ValueError` when the day does not exist in the target
month (`services/db/events.py` lines 270-275). -/
def stepMonth (d : DateTime) : Except String DateTime :=
  if d.month == 12 then
    .ok { d with year := d.year + 1, month := 1 }
  else if d.day ≤ daysInMonth d.year (d.month + 1) then
    .ok { d with month := d.month + 1 }
  else
    .error "ValueError: day is out of range for month"

/-- Python's `date.replace(year=year+1)`: raises `ValueError` on Feb 29 when
the next year is not a leap year (`services/db/events.py` line 277). -/
def stepYear (d : DateTime) : Except String DateTime :=
  if d.month == 2 && d.day == 29 && !(isLeapYear (d.year + 1)) then
    .error "ValueError: day is out of range for month"
  else
    .ok { d with year := d.year + 1 }

/-- The cursor step of `generate_instances` (lines 265-277).  A `none`
frequency falls through every branch, leaving the cursor unchanged (the
Python loop then never terminates); a `none` interval is a `TypeError` in
`timedelta(days=None)`. -/
def stepCursor (t : Event) (cur : DateTime) : Except String DateTime :=
  match t.recurrence_frequency with
  | some .daily =>
      match t.recurrence_interval with
      | some k => .ok (addDays cur k)
      | none => .error "TypeError: unsupported type for timedelta days"
  | some .weekly => .ok (addDays cur 1)
  | some .monthly => stepMonth cur
  | some .yearly => stepYear cur
  | none => .ok cur

/-- A freshly inserted instance row (`Event(...)` constructor call at
`services/db/events.py` lines 255-261, with the column defaults of the
unspecified fields; `recurrence_interval` has column default 1). -/
def mkInstance (nid : Nat) (t : Event) (tid : Nat) (it : DateTime)
    (now : DateTime) : Event :=
  { id := nid
    user_id := t.user_id
    description := t.description
    event_time := it
    is_message_sent := false
    is_confirmed := false
    is_recurring := false
    recurrence_frequency := none
    recurrence_interval := some 1
    recurrence_end_date := none
    recurrence_days_of_week := none
    parent_event_id := some tid
    created_at := now
    updated_at := now }

/-- `Event.query.filter_by(parent_event_id=..., event_time=...).first()`
(the pre-insert existence check, lines 248-251). -/
def findInstance (db : Db) (tid : Nat) (it : DateTime) : Option Event :=
  db.find? (fun e => e.parent_event_id == some tid && e.event_time == it)

/-- One iteration of the cursor loop's body (lines 240-263): when the
cursor date matches, look up an existing `(parent, event_time)` instance
and insert a new row only when none exists.  Returns the updated session,
the rows created by this iteration, and the next autoincrement id. -/
def matStep (t : Event) (tid : Nat) (now : DateTime) (cur : DateTime)
    (db : Db) (nid : Nat) : Db × List Event × Nat :=
  if shouldCreate t cur then
    match findInstance db tid (instanceTime t cur) with
    | some _ => (db, [], nid)
    | none =>
        (db ++ [mkInstance nid t tid (instanceTime t cur) now],
          [mkInstance nid t tid (instanceTime t cur) now], nid + 1)
  else (db, [], nid)

/-- The `while current_date <= effective_end_date` loop of
`generate_instances` (lines 212-277), with the session threaded through:
returns the updated session, the created instances in order, and the next
autoincrement id, or the error that aborts the batch. -/
def matLoop (t : Event) (tid : Nat) (endD : DateTime) (now : DateTime) :
    Nat → DateTime → Db → Nat → Except String (Db × List Event × Nat)
  | 0, _, _, _ => .error "nontermination: cursor loop fuel exhausted"
  | fuel + 1, cur, db, nid =>
      if cur.leb endD then
        match stepCursor t cur with
        | .error e => .error e
        | .ok nxt =>
            match matLoop t tid endD now fuel nxt
                (matStep t tid now cur db nid).1
                (matStep t tid now cur db nid).2.2 with
            | .error e => .error e
            | .ok (dbF, cr, nidF) =>
                .ok (dbF, (matStep t tid now cur db nid).2.1 ++ cr, nidF)
      else .ok (db, [], nid)

/-- Window clipping by the template's `recurrence_end_date`
(`services/db/events.py` lines 208-210): `effective_end_date`. -/
def effectiveEnd (t : Event) (end_date : DateTime) : DateTime :=
  match t.recurrence_end_date with
  | some ed => if ed.ltb end_date then ed else end_date
  | none => end_date

/-- The body of `generate_instances` after the template has been fetched and
validated (lines 204-295): window clipping by `recurrence_end_date`, the
cursor loop, and the single commit -- on any error the session rolls back,
so the caller keeps the original database and autoincrement counter. -/
def generateFromTemplate (t : Event) (db : Db) (nid : Nat) (event_id : Nat)
    (start_date end_date : DateTime) (now : DateTime) (fuel : Nat) :
    (Db × Nat) × Except String (List Event) :=
  match matLoop t event_id (effectiveEnd t end_date) now fuel start_date db nid with
  | .ok (db', created, nid') => ((db', nid'), .ok created)
  | .error e => ((db, nid), .error e)

/-- `services/db/events.py:generate_instances` (lines 158-295).  Returns the
post-call session state together with the created instances, or the error of
the failing call (in which case the session state is unchanged). -/
def generate_instances (db : Db) (nid : Nat) (event_id : Nat)
    (start_date end_date : DateTime) (now : DateTime) (fuel : Nat) :
    (Db × Nat) × Except String (List Event) :=
  match findEvent db event_id with
  | none => ((db, nid), .error "Event with ID does not exist")
  | some t =>
      if !t.is_recurring then
        ((db, nid), .error "Event is not a recurring template")
      else if t.parent_event_id.isSome then
        ((db, nid),
          .error "Cannot generate instances from an instance. Use the parent event.")
      else
        generateFromTemplate t db nid event_id start_date end_date now fuel

/-- The same cursor loop with the database state erased: the sequence of
candidate instance timestamps the materializer considers (the spec's
Recurrence Engine, `enumerate`). -/
def enumLoop (t : Event) (endD : DateTime) :
    Nat → DateTime → Except String (List DateTime)
  | 0, _ => .error "nontermination: cursor loop fuel exhausted"
  | fuel + 1, cur =>
      if cur.leb endD then
        match stepCursor t cur with
        | .error e => .error e
        | .ok nxt =>
            match enumLoop t endD fuel nxt with
            | .error e => .error e
            | .ok rest =>
                .ok ((if shouldCreate t cur then [instanceTime t cur] else [])
                  ++ rest)
      else .ok []

/-- `enumerate(template, windowStart, windowEnd)`: the candidate timestamps
of `generate_instances` over a window, with `recurrence_end_date` clipping. -/
def enum_instances (t : Event) (start_date end_date : DateTime) (fuel : Nat) :
    Except String (List DateTime) :=
  enumLoop t (effectiveEnd t end_date) fuel start_date

/-! ### The reminder sweeps (`reminder_sender.py`)

The sweeps compare datetimes only through differences measured in minutes
(`timedelta(minutes=30)`, `timedelta(hours=3)`, `int(total_seconds()/60)`),
so they are embedded on an absolute minute timeline: a timestamp is an `Int`
counting minutes.  The owner's IANA timezone is carried as its fixed offset
in minutes east of UTC (`None` timezone falls back to UTC, as in
`ZoneInfo(event.user.timezone or 'UTC')`), and interpreting a stored naive
local wall-clock time in that zone and converting to UTC is subtracting the
offset. -/

/-- An instance row as seen by the sweeps: the flags and parent pointer of
the `Event` row, its naive local `event_time` in minutes, and the owner's
timezone offset (minutes east of UTC) reached through the `user`
relationship. -/
structure SweepEvent where
  id : Nat
  event_time : Int
  is_message_sent : Bool
  is_confirmed : Bool
  parent_event_id : Option Nat
  timezone : Option Int
deriving DecidableEq, Repr

/-- A `messages` table row as read by the escalation sweep. -/
structure SweepMessage where
  event_id : Option Nat
  sent_by : String
  timestamp : Int
deriving DecidableEq, Repr

/-- `event_time.replace(tzinfo=user_tz).astimezone(UTC)`: the stored local
wall-clock time converted to UTC. -/
def eventTimeUtc (e : SweepEvent) : Int :=
  e.event_time - e.timezone.getD 0

/-- The database-side filter of the initial sweep
(`reminder_sender.py` lines 49-53). -/
def initialCandidates (events : List SweepEvent) : List SweepEvent :=
  events.filter (fun e =>
    !e.is_confirmed && !e.is_message_sent && e.parent_event_id.isSome)

/-- The Python-side time filter of the initial sweep (lines 57-66):
`now < event_time_utc <= thirty_min_from_now`. -/
def initialUpcoming (events : List SweepEvent) (now : Int) :
    List SweepEvent :=
  (initialCandidates events).filter (fun e =>
    decide (now < eventTimeUtc e) && decide (eventTimeUtc e ≤ now + 30))

/-- The database-side filter of the escalation sweep (lines 176-180). -/
def escalationCandidates (events : List SweepEvent) : List SweepEvent :=
  events.filter (fun e =>
    !e.is_confirmed && e.is_message_sent && e.parent_event_id.isSome)

/-- The Python-side time filter of the escalation sweep (lines 184-193):
`three_hours_ago <= event_time_utc <= now`. -/
def escalationWindow (events : List SweepEvent) (now : Int) :
    List SweepEvent :=
  (escalationCandidates events).filter (fun e =>
    decide (now - 180 ≤ eventTimeUtc e) && decide (eventTimeUtc e ≤ now))

/-- `Message.query.filter(event_id == ..., sent_by == 'ai')`
(lines 209-212). -/
def aiMessagesFor (msgs : List SweepMessage) (eid : Nat) :
    List SweepMessage :=
  msgs.filter (fun m => m.event_id == some eid && m.sent_by == "ai")

/-- The per-event escalation decision (lines 214-232): skip when 5 messages
were already sent; skip when the most recent message (the head of the
timestamp-descending order, i.e. the maximal timestamp) is less than 30
minutes old; otherwise send message number `count + 1`. -/
def escalationDecision (aiMsgs : List SweepMessage) (now : Int) :
    Option Nat :=
  let messageCount := aiMsgs.length
  if 5 ≤ messageCount then none
  else
    match (aiMsgs.map (fun m => m.timestamp)).max? with
    | none => some (messageCount + 1)
    | some lastTs =>
        if now - lastTs < 30 then none
        else some (messageCount + 1)

/-! ### Confirmation (`services/db/events.py:confirm_event`) -/

/-- `confirm_event` (lines 471-515): fetch by id, 404 when absent, else set
`is_confirmed = True` and `updated_at = datetime.utcnow()` and commit.
Returns the post-call database and the confirmed row (or the error). -/
def confirm_event (db : Db) (event_id : Nat) (now : DateTime) :
    Db × Except String Event :=
  match findEvent db event_id with
  | none => (db, .error "Event with ID does not exist")
  | some e =>
      let e' := { e with is_confirmed := true, updated_at := now }
      (db.map (fun x => if x.id == e.id then e' else x), .ok e')

/-! ### Template update (`services/agent_tools.py:update_reminder`)

`update_reminder` imports `delete_future_instances` and
`update_recurring_event` from `services.db.events`, but the repository's
`events.py` does not define them: only this caller exists.  The two
database operations are therefore modelled from the spec. -/

/-- Modelled from the spec: `delete_future_instances`, absent from the
repository's `events.py` (only its caller `update_reminder` exists).  Per
the spec, updating a template "deletes all instances with `eventTime` in
the future relative to the update moment" and "past instances are
untouched": it removes exactly the generated instances of the template
whose event time is strictly later than the update moment, and reports how
many were deleted. -/
def delete_future_instances (db : Db) (tid : Nat) (now : DateTime) :
    Db × Nat :=
  let isFuture := fun (e : Event) =>
    e.parent_event_id == some tid && now.ltb e.event_time
  (db.filter (fun e => !isFuture e), (db.filter isFuture).length)

/-- The field replacement of a template update: each supplied value
replaces the stored one, omitted values are kept. -/
def applyTemplateUpdates (t : Event) (description : Option String)
    (event_time : Option DateTime) (freq : Option Freq)
    (days_of_week : Option String) : Event :=
  { t with
    description := description.getD t.description
    event_time := event_time.getD t.event_time
    recurrence_frequency :=
      match freq with
      | some f => some f
      | none => t.recurrence_frequency
    recurrence_days_of_week :=
      match days_of_week with
      | some s => some s
      | none => t.recurrence_days_of_week }

/-- Modelled from the spec: `update_recurring_event`, absent from the
repository's `events.py`.  Per the spec it "replaces template fields" with
the supplied values; the stored row with the template's id is rewritten. -/
def update_recurring_event (db : Db) (tid : Nat) (description : Option String)
    (event_time : Option DateTime) (freq : Option Freq)
    (days_of_week : Option String) : Db × Except String Event :=
  match findEvent db tid with
  | none => (db, .error "Event with ID does not exist")
  | some t =>
      let t' := applyTemplateUpdates t description event_time freq days_of_week
      (db.map (fun x => if x.id == tid then t' else x), .ok t')

/-- `services/agent_tools.py:update_reminder` (lines 345-418): first delete
the template's future instances, then replace the template's fields. -/
def update_reminder (db : Db) (tid : Nat) (description : Option String)
    (event_time : Option DateTime) (freq : Option Freq)
    (days_of_week : Option String) (now : DateTime) :
    Db × Except String Event :=
  update_recurring_event (delete_future_instances db tid now).1 tid
    description event_time freq days_of_week

/-! ### Shared helper lemmas -/

/-- A successful `find?` survives appending rows on the right. -/
theorem find?_append_left {α : Type} {p : α → Bool} {l1 : List α}
    (l2 : List α) {a : α} (h : l1.find? p = some a) :
    (l1 ++ l2).find? p = some a := by
  rw [List.find?_append, h]
  rfl

/-- All error paths of `generate_instances` leave the session state (rows
and autoincrement counter) unchanged: the rollback of the failing batch. -/
theorem generate_instances_error_state (db : Db) (nid eid : Nat)
    (a b now : DateTime) (fuel : Nat) (st : Db × Nat) (e : String)
    (h : generate_instances db nid eid a b now fuel = (st, .error e)) :
    st = (db, nid) := by
  unfold generate_instances generateFromTemplate at h
  split at h
  · injection h with h1 _
    exact h1.symm
  · split at h
    · injection h with h1 _
      exact h1.symm
    · split at h
      · injection h with h1 _
        exact h1.symm
      · split at h
        · injection h with _ h2
          exact absurd h2 (by simp)
        · injection h with h1 _
          exact h1.symm

/-! ### Claim C7 -/

/-- C7: `generate_instances` fails with the not-found error when the
template id does not exist, and with the invalid-template errors when the
referenced event is not recurring or is itself an instance, in each case
with the session untouched; and on any failure the whole batch rolls back:
a failing call leaves the persisted state (rows and autoincrement counter)
unchanged and reports no creations. -/
theorem c7_materialize_error_contract (db : Db) (nid eid : Nat)
    (a b now : DateTime) (fuel : Nat) :
    (findEvent db eid = none →
      generate_instances db nid eid a b now fuel =
        ((db, nid), .error "Event with ID does not exist")) ∧
    (∀ t, findEvent db eid = some t → t.is_recurring = false →
      generate_instances db nid eid a b now fuel =
        ((db, nid), .error "Event is not a recurring template")) ∧
    (∀ t, findEvent db eid = some t → t.is_recurring = true →
      t.parent_event_id.isSome = true →
      generate_instances db nid eid a b now fuel =
        ((db, nid),
          .error "Cannot generate instances from an instance. Use the parent event.")) ∧
    (∀ st e, generate_instances db nid eid a b now fuel = (st, .error e) →
      st = (db, nid)) := by
  refine ⟨?_, ?_, ?_, ?_⟩
  · intro h
    unfold generate_instances
    rw [h]
  · intro t ht hr
    unfold generate_instances
    rw [ht]
    simp [hr]
  · intro t ht hr hp
    unfold generate_instances
    rw [ht]
    simp [hr, hp]
  · intro st e h
    exact generate_instances_error_state db nid eid a b now fuel st e h

/-- C7 witness: a call on an empty database fails with the not-found error
and leaves the state unchanged. -/
theorem c7_materialize_error_contract_witness :
    generate_instances [] 5 5 ⟨2025, 1, 1, 0, 0, 0⟩ ⟨2025, 1, 2, 0, 0, 0⟩
        ⟨2025, 1, 1, 0, 0, 0⟩ 3 =
      (([], 5), .error "Event with ID does not exist") :=
  (c7_materialize_error_contract [] 5 5 ⟨2025, 1, 1, 0, 0, 0⟩
    ⟨2025, 1, 2, 0, 0, 0⟩ ⟨2025, 1, 1, 0, 0, 0⟩ 3).1 rfl

/-! ### Claim C2 -/

/-- C2: the initial sweep selects exactly the instances with
`messageSent = false`, `confirmed = false` and a non-null parent (so
templates and parentless one-time events are never selected) whose event
time, converted from the owner's timezone to UTC, lies strictly after `now`
and at most 30 minutes ahead; in particular an instance exactly 30 minutes
ahead IS selected, one exactly at `now` is NOT, and one 31 minutes ahead is
NOT. -/
theorem c2_initial_sweep_selection (events : List SweepEvent) (now : Int)
    (e : SweepEvent) :
    (e ∈ initialUpcoming events now ↔
      (e ∈ events ∧ e.is_confirmed = false ∧ e.is_message_sent = false ∧
        e.parent_event_id ≠ none ∧ now < eventTimeUtc e ∧
        eventTimeUtc e ≤ now + 30)) ∧
    (e ∈ events → e.is_confirmed = false → e.is_message_sent = false →
      e.parent_event_id ≠ none →
      ((eventTimeUtc e = now + 30 → e ∈ initialUpcoming events now) ∧
       (eventTimeUtc e = now → e ∉ initialUpcoming events now) ∧
       (eventTimeUtc e = now + 31 → e ∉ initialUpcoming events now))) := by
  have hmain : e ∈ initialUpcoming events now ↔
      (e ∈ events ∧ e.is_confirmed = false ∧ e.is_message_sent = false ∧
        e.parent_event_id ≠ none ∧ now < eventTimeUtc e ∧
        eventTimeUtc e ≤ now + 30) := by
    simp only [initialUpcoming, initialCandidates, List.mem_filter,
      Bool.and_eq_true, Bool.not_eq_true', decide_eq_true_eq,
      Option.isSome_iff_ne_none]
    tauto
  refine ⟨hmain, ?_⟩
  intro h1 h2 h3 h4
  refine ⟨?_, ?_, ?_⟩
  · intro hx
    rw [hmain]
    refine ⟨h1, h2, h3, h4, ?_, ?_⟩ <;> omega
  · intro hx hmem
    rw [hmain] at hmem
    omega
  · intro hx hmem
    rw [hmain] at hmem
    omega

/-- C2 witness: with `now = 0` and a UTC owner, an eligible instance at
minute 30 is selected and ones at minutes 0 and 31 are not. -/
theorem c2_initial_sweep_selection_witness :
    (⟨1, 30, false, false, some 9, none⟩ : SweepEvent) ∈
      initialUpcoming [⟨1, 30, false, false, some 9, none⟩] 0 ∧
    (⟨2, 0, false, false, some 9, none⟩ : SweepEvent) ∉
      initialUpcoming [⟨2, 0, false, false, some 9, none⟩] 0 ∧
    (⟨3, 31, false, false, some 9, none⟩ : SweepEvent) ∉
      initialUpcoming [⟨3, 31, false, false, some 9, none⟩] 0 :=
  ⟨((c2_initial_sweep_selection [⟨1, 30, false, false, some 9, none⟩] 0
      ⟨1, 30, false, false, some 9, none⟩).2 (by decide) rfl rfl (by decide)).1
      (by decide),
   ((c2_initial_sweep_selection [⟨2, 0, false, false, some 9, none⟩] 0
      ⟨2, 0, false, false, some 9, none⟩).2 (by decide) rfl rfl (by decide)).2.1
      (by decide),
   ((c2_initial_sweep_selection [⟨3, 31, false, false, some 9, none⟩] 0
      ⟨3, 31, false, false, some 9, none⟩).2 (by decide) rfl rfl (by decide)).2.2
      (by decide)⟩

/-! ### Claim C3 -/

/-- C3: for every instance eligible for the escalation sweep (unconfirmed,
already messaged, non-null parent, event time within the last three hours):
with at least 5 prior AI messages it is skipped regardless of elapsed time;
with the most recent AI message less than 30 minutes old it is skipped;
otherwise a message with sequence number `count + 1` is sent.  In
particular an instance with 2 prior messages whose last was 20 minutes ago
is skipped, while one whose last of 2 messages was 31 minutes ago gets
message number 3. -/
theorem c3_escalation_decision_contract (events : List SweepEvent)
    (msgs : List SweepMessage) (now : Int) (e : SweepEvent)
    (he : e ∈ escalationWindow events now) :
    (5 ≤ (aiMessagesFor msgs e.id).length →
      escalationDecision (aiMessagesFor msgs e.id) now = none) ∧
    (∀ lastTs, (aiMessagesFor msgs e.id).length < 5 →
      ((aiMessagesFor msgs e.id).map (fun m => m.timestamp)).max? =
        some lastTs →
      now - lastTs < 30 →
      escalationDecision (aiMessagesFor msgs e.id) now = none) ∧
    (∀ lastTs, (aiMessagesFor msgs e.id).length < 5 →
      ((aiMessagesFor msgs e.id).map (fun m => m.timestamp)).max? =
        some lastTs →
      30 ≤ now - lastTs →
      escalationDecision (aiMessagesFor msgs e.id) now =
        some ((aiMessagesFor msgs e.id).length + 1)) ∧
    ((aiMessagesFor msgs e.id).length < 5 →
      aiMessagesFor msgs e.id = [] →
      escalationDecision (aiMessagesFor msgs e.id) now =
        some ((aiMessagesFor msgs e.id).length + 1)) ∧
    (escalationDecision
        [⟨some e.id, "ai", now - 20⟩, ⟨some e.id, "ai", now - 50⟩] now =
      none) ∧
    (escalationDecision
        [⟨some e.id, "ai", now - 31⟩, ⟨some e.id, "ai", now - 60⟩] now =
      some 3) := by
  refine ⟨?_, ?_, ?_, ?_, ?_, ?_⟩
  · intro h5
    unfold escalationDecision
    simp [h5]
  · intro lastTs h5 hmax hnew
    unfold escalationDecision
    rw [if_neg (by omega), hmax]
    dsimp only
    rw [if_pos hnew]
  · intro lastTs h5 hmax hold
    unfold escalationDecision
    rw [if_neg (by omega), hmax]
    dsimp only
    rw [if_neg (by omega)]
  · intro h5 hnil
    unfold escalationDecision
    rw [if_neg (by omega), hnil]
    rfl
  · unfold escalationDecision
    simp only [List.length_cons, List.length_nil, List.map_cons,
      List.map_nil]
    rw [if_neg (by omega)]
    have hmax : ([now - 20, now - 50] : List Int).max? = some (now - 20) := by
      simp [List.max?, max_def]
      omega
    rw [hmax]
    dsimp only
    rw [if_pos (by omega)]
  · unfold escalationDecision
    simp only [List.length_cons, List.length_nil, List.map_cons,
      List.map_nil]
    rw [if_neg (by omega)]
    have hmax : ([now - 31, now - 60] : List Int).max? = some (now - 31) := by
      simp [List.max?, max_def]
      omega
    rw [hmax]
    dsimp only
    rw [if_neg (by omega)]

/-- C3 witness: a concrete eligible instance; with 2 AI messages 20 minutes
old it is skipped, with the last one 31 minutes old it gets message 3. -/
theorem c3_escalation_decision_contract_witness :
    escalationDecision
        [⟨some 4, "ai", 1000 - 20⟩, ⟨some 4, "ai", 1000 - 50⟩] 1000 =
      none ∧
    escalationDecision
        [⟨some 4, "ai", 1000 - 31⟩, ⟨some 4, "ai", 1000 - 60⟩] 1000 =
      some 3 :=
  ⟨((c3_escalation_decision_contract
      [⟨4, 990, true, false, some 2, none⟩] [] 1000
      ⟨4, 990, true, false, some 2, none⟩ (by decide)).2.2.2.2).1,
   ((c3_escalation_decision_contract
      [⟨4, 990, true, false, some 2, none⟩] [] 1000
      ⟨4, 990, true, false, some 2, none⟩ (by decide)).2.2.2.2).2⟩

/-! ### Claim C9 -/

/-- An already-confirmed event row used to exercise `confirm_event`. -/
def confirmedEvent : Event :=
  { id := 1
    user_id := 1
    description := "dentist"
    event_time := ⟨2025, 1, 1, 9, 0, 0⟩
    is_message_sent := true
    is_confirmed := true
    is_recurring := false
    recurrence_frequency := none
    recurrence_interval := some 1
    recurrence_end_date := none
    recurrence_days_of_week := none
    parent_event_id := some 7
    created_at := ⟨2025, 1, 1, 0, 0, 0⟩
    updated_at := ⟨2025, 1, 1, 0, 0, 0⟩ }

/-- C9 counterexample: confirming an already-confirmed event does NOT leave
its persisted state entirely unchanged -- `confirm_event` always rewrites
`updated_at` to the current time, so the stored row differs after the
call. -/
theorem c9_confirm_counterexample :
    confirmedEvent.is_confirmed = true ∧
    (confirm_event [confirmedEvent] 1 ⟨2025, 1, 2, 0, 0, 0⟩).2 =
      .ok { confirmedEvent with updated_at := ⟨2025, 1, 2, 0, 0, 0⟩ } ∧
    (confirm_event [confirmedEvent] 1 ⟨2025, 1, 2, 0, 0, 0⟩).1 ≠
      [confirmedEvent] := by
  refine ⟨rfl, rfl, ?_⟩
  decide

/-- C9 (amended): confirming an already-confirmed event succeeds (it is not
an error) and changes nothing in the stored row except `updated_at`, which
is set to the current time; no message row is created by `confirm_event`;
the call fails with the not-found error exactly when no event with that id
exists. -/
theorem c9_confirm_amended (db : Db) (eid : Nat) (now : DateTime) :
    (findEvent db eid = none →
      confirm_event db eid now = (db, .error "Event with ID does not exist")) ∧
    (∀ e, findEvent db eid = some e → e.is_confirmed = true →
      (confirm_event db eid now).2 = .ok { e with updated_at := now } ∧
      (confirm_event db eid now).1 =
        db.map (fun x =>
          if x.id == e.id then { e with updated_at := now } else x) ∧
      (∀ x ∈ db, x.id ≠ e.id → x ∈ (confirm_event db eid now).1)) := by
  constructor
  · intro h
    unfold confirm_event
    rw [h]
  · intro e he hc
    have hkey : ({ e with is_confirmed := true, updated_at := now } : Event) =
        { e with updated_at := now } := by
      cases e
      simp_all
    simp only [confirm_event, he]
    rw [hkey]
    refine ⟨rfl, rfl, ?_⟩
    intro x hx hne
    simp only [List.mem_map]
    exact ⟨x, hx, by simp [hne]⟩

/-- C9 amended witness: confirming the already-confirmed concrete event
succeeds and rewrites only `updated_at`. -/
theorem c9_confirm_amended_witness :
    (confirm_event [confirmedEvent] 1 ⟨2025, 1, 2, 0, 0, 0⟩).2 =
      .ok { confirmedEvent with updated_at := ⟨2025, 1, 2, 0, 0, 0⟩ } :=
  ((c9_confirm_amended [confirmedEvent] 1 ⟨2025, 1, 2, 0, 0, 0⟩).2
    confirmedEvent rfl rfl).1

/-! ### Claim C10 -/

/-- A daily template whose anchor time-of-day (09:00) is earlier than the
window start's time-of-day (12:00). -/
def earlyAnchorTemplate : Event :=
  { id := 1
    user_id := 3
    description := "pills"
    event_time := ⟨2025, 1, 1, 9, 0, 0⟩
    is_message_sent := false
    is_confirmed := false
    is_recurring := true
    recurrence_frequency := some .daily
    recurrence_interval := some 1
    recurrence_end_date := none
    recurrence_days_of_week := none
    parent_event_id := none
    created_at := ⟨2025, 1, 1, 0, 0, 0⟩
    updated_at := ⟨2025, 1, 1, 0, 0, 0⟩ }

/-- C10: materialized instance timestamps are not confined to the requested
window: for a daily template anchored at 09:00 and a window starting at
12:00, `generate_instances` creates an instance at 09:00 of the first day,
strictly earlier than the window start. -/
theorem c10_instance_before_window_start :
    (generate_instances [earlyAnchorTemplate] 2 1 ⟨2025, 1, 1, 12, 0, 0⟩
        ⟨2025, 1, 2, 0, 0, 0⟩ ⟨2025, 1, 1, 0, 0, 0⟩ 10).2 =
      .ok [{ id := 2
             user_id := 3
             description := "pills"
             event_time := ⟨2025, 1, 1, 9, 0, 0⟩
             is_message_sent := false
             is_confirmed := false
             is_recurring := false
             recurrence_frequency := none
             recurrence_interval := some 1
             recurrence_end_date := none
             recurrence_days_of_week := none
             parent_event_id := some 1
             created_at := ⟨2025, 1, 1, 0, 0, 0⟩
             updated_at := ⟨2025, 1, 1, 0, 0, 0⟩ }] ∧
    DateTime.ltb ⟨2025, 1, 1, 9, 0, 0⟩ ⟨2025, 1, 1, 12, 0, 0⟩ = true := by
  exact ⟨rfl, by decide⟩

/-! ### Claim C4 (counterexample part) -/

/-- A monthly template anchored on day 31 (anchor 2024-12-31 09:00). -/
def day31Template : Event :=
  { id := 1
    user_id := 3
    description := "rent"
    event_time := ⟨2024, 12, 31, 9, 0, 0⟩
    is_message_sent := false
    is_confirmed := false
    is_recurring := true
    recurrence_frequency := some .monthly
    recurrence_interval := some 1
    recurrence_end_date := none
    recurrence_days_of_week := none
    parent_event_id := none
    created_at := ⟨2024, 12, 1, 0, 0, 0⟩
    updated_at := ⟨2024, 12, 1, 0, 0, 0⟩ }

/-- C4 counterexample: a monthly template anchored on day 31, materialized
over the window 2025-01-15 .. 2025-03-31 (which contains February and, on
its last day, the anchor day 31 of March), creates NO instance at all: the
cursor keeps the window start's day-of-month (15), so even March -- a month
containing the anchor day inside the window -- produces nothing, refuting
"all months containing the anchor day within the window do produce their
instance". -/
theorem c4_monthly_counterexample :
    (generate_instances [day31Template] 2 1 ⟨2025, 1, 15, 0, 0, 0⟩
        ⟨2025, 3, 31, 23, 59, 59⟩ ⟨2025, 1, 1, 0, 0, 0⟩ 10).2 = .ok [] ∧
    DateTime.leb ⟨2025, 1, 15, 0, 0, 0⟩ ⟨2025, 3, 31, 9, 0, 0⟩ = true ∧
    DateTime.leb ⟨2025, 3, 31, 9, 0, 0⟩ ⟨2025, 3, 31, 23, 59, 59⟩ = true := by
  exact ⟨rfl, by decide, by decide⟩

/-! ### Structure of the cursor loop -/

/-- A successful Python `replace(month+1)` (or the December wrap) keeps the
day-of-month. -/
theorem stepMonth_day {d nxt : DateTime} (h : stepMonth d = .ok nxt) :
    nxt.day = d.day := by
  unfold stepMonth at h
  split_ifs at h <;> (injection h with h1; rw [← h1])

/-- The session after one loop iteration is the old session with this
iteration's created rows appended. -/
theorem matStep_fst (t : Event) (tid : Nat) (now cur : DateTime) (db : Db)
    (nid : Nat) :
    (matStep t tid now cur db nid).1 = db ++ (matStep t tid now cur db nid).2.1 := by
  unfold matStep
  split
  · split <;> simp
  · simp

/-- Every row created by one loop iteration is the freshly built instance:
parented to the template, timestamped with the cursor date at the anchor's
time-of-day, and only built when the cursor date matches. -/
theorem matStep_created (t : Event) (tid : Nat) (now cur : DateTime)
    (db : Db) (nid : Nat) :
    ∀ e ∈ (matStep t tid now cur db nid).2.1,
      e = mkInstance nid t tid (instanceTime t cur) now ∧
      shouldCreate t cur = true ∧
      findInstance db tid (instanceTime t cur) = none := by
  intro e he
  unfold matStep at he
  split at he
  next hsc =>
    split at he
    next => simp at he
    next hfi =>
      simp only [List.mem_singleton] at he
      exact ⟨he, hsc, hfi⟩
  next => simp at he

/-- When the cursor's date already has its instance (or does not match),
one loop iteration changes nothing. -/
theorem matStep_noop (t : Event) (tid : Nat) (now cur : DateTime) (db : Db)
    (nid : Nat)
    (h : shouldCreate t cur = true →
      (findInstance db tid (instanceTime t cur)).isSome = true) :
    matStep t tid now cur db nid = (db, [], nid) := by
  unfold matStep
  split
  next hsc =>
    rcases hfi : findInstance db tid (instanceTime t cur) with _ | x
    · rw [hfi] at h
      exact absurd (h hsc) (by simp)
    · rfl
  next => rfl

/-- A success of the cursor loop only appends rows to the session. -/
theorem matLoop_grows (t : Event) (tid : Nat) (endD now : DateTime) :
    ∀ fuel cur db nid db' cr nid',
      matLoop t tid endD now fuel cur db nid = .ok (db', cr, nid') →
      ∃ s, db' = db ++ s := by
  intro fuel
  induction fuel with
  | zero =>
      intro cur db nid db' cr nid' h
      exact absurd h (by simp [matLoop])
  | succ f ih =>
      intro cur db nid db' cr nid' h
      rw [matLoop] at h
      split at h
      · split at h
        next => exact absurd h (by simp)
        next nxt hs =>
          split at h
          next => exact absurd h (by simp)
          next dbF crR nidF hm =>
            injection h with h1
            obtain ⟨hdb, -⟩ := Prod.mk.injEq .. ▸ h1
            obtain ⟨s, hsapp⟩ := ih _ _ _ _ _ _ hm
            refine ⟨(matStep t tid now cur db nid).2.1 ++ s, ?_⟩
            rw [← hdb, hsapp, matStep_fst, List.append_assoc]
      · injection h with h1
        obtain ⟨hdb, -⟩ := Prod.mk.injEq .. ▸ h1
        exact ⟨[], by rw [← hdb, List.append_nil]⟩

/-- For a monthly template the cursor loop only creates rows whose
event-time day equals both the cursor's (hence the window start's)
day-of-month and the anchor's day-of-month. -/
theorem matLoop_monthly_day (t : Event) (tid : Nat) (endD now : DateTime)
    (hf : t.recurrence_frequency = some .monthly) :
    ∀ fuel cur db nid db' cr nid',
      matLoop t tid endD now fuel cur db nid = .ok (db', cr, nid') →
      ∀ e ∈ cr, e.event_time.day = cur.day ∧
        e.event_time.day = t.event_time.day := by
  intro fuel
  induction fuel with
  | zero =>
      intro cur db nid db' cr nid' h
      exact absurd h (by simp [matLoop])
  | succ f ih =>
      intro cur db nid db' cr nid' h e he
      rw [matLoop] at h
      split at h
      · split at h
        next => exact absurd h (by simp)
        next nxt hs =>
          split at h
          next => exact absurd h (by simp)
          next dbF crR nidF hm =>
            injection h with h1
            have hcr : (matStep t tid now cur db nid).2.1 ++ crR = cr :=
              congrArg (fun p => p.2.1) h1
            rw [← hcr] at he
            have hday : nxt.day = cur.day := by
              rw [stepCursor, hf] at hs
              exact stepMonth_day hs
            rcases List.mem_append.mp he with hmem | hmem
            · obtain ⟨heq, hsc, -⟩ :=
                matStep_created t tid now cur db nid e hmem
              have hd : cur.day = t.event_time.day := by
                simpa [shouldCreate, hf] using hsc
              subst heq
              refine ⟨rfl, ?_⟩
              show (instanceTime t cur).day = t.event_time.day
              exact hd
            · obtain ⟨h1, h2⟩ := ih _ _ _ _ _ _ hm e hmem
              exact ⟨hday ▸ h1, h2⟩
      · injection h with h1
        have hcr : ([] : List Event) = cr := congrArg (fun p => p.2.1) h1
        rw [← hcr] at he
        exact absurd he (List.not_mem_nil e)

/-- C4 (amended): for a monthly template the cursor keeps the window
start's day-of-month and a date matches only when that day equals the
anchor's day, so every created instance sits on the anchor's day-of-month
(no clamped instance ever exists, and a month without that day creates
nothing), and whenever the window start's day differs from the anchor's
day a successful call creates no instance at all -- even in months that do
contain the anchor day. -/
theorem c4_monthly_amended (db : Db) (nid tid : Nat) (a b now : DateTime)
    (fuel : Nat) (t : Event) (ht : findEvent db tid = some t)
    (hf : t.recurrence_frequency = some .monthly) :
    ∀ L, (generate_instances db nid tid a b now fuel).2 = .ok L →
      (∀ e ∈ L, e.event_time.day = t.event_time.day ∧
        e.event_time.day = a.day) ∧
      (a.day ≠ t.event_time.day → L = []) := by
  intro L hL
  simp only [generate_instances, ht] at hL
  split at hL
  · exact absurd hL (by simp)
  · split at hL
    · exact absurd hL (by simp)
    · unfold generateFromTemplate at hL
      split at hL
      next dbF crR nidF hm =>
        simp only at hL
        have hLcr : crR = L := by
          injection hL
        subst hLcr
        have hall := matLoop_monthly_day t tid (effectiveEnd t b) now hf
          fuel a db nid dbF crR nidF hm
        constructor
        · intro e he
          obtain ⟨h1, h2⟩ := hall e he
          exact ⟨h2, h1⟩
        · intro hne
          rcases hcr : crR with _ | ⟨e0, rest⟩
          · rfl
          · rw [hcr] at hall
            obtain ⟨h1, h2⟩ := hall e0 (List.mem_cons_self e0 rest)
            exact absurd (h1.symm.trans h2) hne
      next => exact absurd hL (by simp)

/-- C4 amended witness: the monthly day-31 template over the window
2025-01-15 .. 2025-03-31 generates successfully and creates nothing; the
window start's day (15) differs from the anchor day (31), so the amended
theorem applies with the created list equal to the empty list. -/
theorem c4_monthly_amended_witness :
    (∀ e ∈ ([] : List Event),
      e.event_time.day = day31Template.event_time.day ∧
      e.event_time.day = 15) ∧
    ((15 : Nat) ≠ day31Template.event_time.day → ([] : List Event) = []) :=
  c4_monthly_amended [day31Template] 2 1 ⟨2025, 1, 15, 0, 0, 0⟩
    ⟨2025, 3, 31, 23, 59, 59⟩ ⟨2025, 1, 1, 0, 0, 0⟩ 10 day31Template rfl rfl
    [] rfl

/-! ### Idempotence of the materializer (claim C1) -/

/-- A `(parent, event_time)` key with an instance in the session makes the
pre-insert existence check succeed. -/
theorem findInstance_isSome_of_mem {db : Db} {tid : Nat} {it : DateTime}
    {e : Event} (hmem : e ∈ db) (hp : e.parent_event_id = some tid)
    (hts : e.event_time = it) :
    (findInstance db tid it).isSome = true := by
  rw [findInstance, List.find?_isSome]
  exact ⟨e, hmem, by simp [hp, hts]⟩

/-- Re-running the cursor loop from the session a successful run produced
changes nothing: every candidate key now has its instance, so every
existence check succeeds. -/
theorem matLoop_idem (t : Event) (tid : Nat) (endD now : DateTime) :
    ∀ fuel cur db nid db' cr nid',
      matLoop t tid endD now fuel cur db nid = .ok (db', cr, nid') →
      matLoop t tid endD now fuel cur db' nid' = .ok (db', [], nid') := by
  intro fuel
  induction fuel with
  | zero =>
      intro cur db nid db' cr nid' h
      exact absurd h (by simp [matLoop])
  | succ f ih =>
      intro cur db nid db' cr nid' h
      rw [matLoop] at h
      split at h
      next hle =>
        split at h
        next => exact absurd h (by simp)
        next nxt hs =>
          split at h
          next => exact absurd h (by simp)
          next dbF crR nidF hm =>
            injection h with h1
            have hdb : dbF = db' := congrArg (fun p => p.1) h1
            have hnid : nidF = nid' := congrArg (fun p => p.2.2) h1
            rw [hdb, hnid] at hm
            have hnoop : matStep t tid now cur db' nid' = (db', [], nid') := by
              apply matStep_noop
              intro hsc
              obtain ⟨s2, hs2⟩ := matLoop_grows t tid endD now f nxt
                (matStep t tid now cur db nid).1
                (matStep t tid now cur db nid).2.2 db' crR nid' hm
              rcases hfi : findInstance db tid (instanceTime t cur) with _ | x
              · -- a fresh instance was inserted by this iteration
                have hstep : (matStep t tid now cur db nid).1 =
                    db ++ [mkInstance nid t tid (instanceTime t cur) now] := by
                  unfold matStep
                  rw [if_pos hsc, hfi]
                have hmem : mkInstance nid t tid (instanceTime t cur) now ∈ db' := by
                  rw [hs2, hstep]
                  simp
                exact findInstance_isSome_of_mem hmem rfl rfl
              · -- the instance already existed in the incoming session
                have hx := List.find?_some hfi
                have hxmem : x ∈ db := List.mem_of_find?_eq_some hfi
                have hstep1 : db' = (matStep t tid now cur db nid).1 ++ s2 := hs2
                have hxmem' : x ∈ db' := by
                  rw [hstep1, matStep_fst]
                  simp [hxmem]
                simp only [Bool.and_eq_true, beq_iff_eq] at hx
                exact findInstance_isSome_of_mem hxmem' hx.1 hx.2
            rw [matLoop, if_pos hle]
            split
            next hs' => rw [hs'] at hs; exact absurd hs (by simp)
            next nxt' hs' =>
              rw [hs'] at hs
              injection hs with hs
              rw [hs]
              have hloop := ih _ _ _ _ _ _ hm
              simp only [hnoop]
              rw [hloop]
              rfl
      next hle =>
        injection h with h1
        have hdb : db = db' := congrArg (fun p => p.1) h1
        have hnid : nid = nid' := congrArg (fun p => p.2.2) h1
        rw [matLoop, if_neg hle]

/-- Number of persisted instances sharing one `(parent, event_time)` key. -/
def pairCount (db : Db) (p : Nat) (ts : DateTime) : Nat :=
  (db.filter (fun e => e.parent_event_id == some p && e.event_time == ts)).length

theorem pairCount_append (db s : Db) (p : Nat) (ts : DateTime) :
    pairCount (db ++ s) p ts = pairCount db p ts + pairCount s p ts := by
  simp [pairCount, List.filter_append]

/-- A failing existence check means the key has no instance yet. -/
theorem pairCount_of_findInstance_none {db : Db} {tid : Nat} {it : DateTime}
    (h : findInstance db tid it = none) : pairCount db tid it = 0 := by
  rw [pairCount, List.length_eq_zero, List.filter_eq_nil_iff]
  rw [findInstance, List.find?_eq_none] at h
  exact h

/-- The cursor loop preserves "at most one instance per
`(parent, event_time)` key": it inserts a key only after the existence
check reports it absent. -/
theorem matLoop_pairCount (t : Event) (tid : Nat) (endD now : DateTime)
    (p : Nat) (ts : DateTime) :
    ∀ fuel cur db nid db' cr nid',
      matLoop t tid endD now fuel cur db nid = .ok (db', cr, nid') →
      pairCount db p ts ≤ 1 → pairCount db' p ts ≤ 1 := by
  intro fuel
  induction fuel with
  | zero =>
      intro cur db nid db' cr nid' h
      exact absurd h (by simp [matLoop])
  | succ f ih =>
      intro cur db nid db' cr nid' h hcount
      rw [matLoop] at h
      split at h
      next hle =>
        split at h
        next => exact absurd h (by simp)
        next nxt hs =>
          split at h
          next => exact absurd h (by simp)
          next dbF crR nidF hm =>
            injection h with h1
            have hdb : dbF = db' := congrArg (fun q => q.1) h1
            rw [hdb] at hm
            apply ih _ _ _ _ _ _ hm
            -- the iteration's session still has at most one row per key
            unfold matStep
            split
            next hsc =>
              rcases hfi : findInstance db tid (instanceTime t cur) with _ | x
              · rw [pairCount_append]
                by_cases hkey : tid = p ∧ instanceTime t cur = ts
                · obtain ⟨rfl, rfl⟩ := hkey
                  rw [pairCount_of_findInstance_none hfi]
                  have : pairCount [mkInstance nid t tid (instanceTime t cur) now]
                      tid (instanceTime t cur) ≤ 1 := by
                    simp [pairCount, mkInstance]
                  omega
                · have hzero : pairCount
                      [mkInstance nid t tid (instanceTime t cur) now] p ts = 0 := by
                    rw [pairCount, List.length_eq_zero, List.filter_eq_nil_iff]
                    intro x hx
                    rw [List.mem_singleton] at hx
                    subst hx
                    simp only [mkInstance, Bool.and_eq_true, beq_iff_eq,
                      Option.some_inj]
                    intro hcontra
                    exact hkey ⟨hcontra.1, hcontra.2⟩
                  omega
              · exact hcount
            next => exact hcount
      next =>
        injection h with h1
        have hdb : db = db' := congrArg (fun q => q.1) h1
        rw [← hdb]
        exact hcount

/-- Running `generate_instances` again from the state a successful call
produced succeeds with zero creations and the same state. -/
theorem generate_instances_idem_ok (db : Db) (nid eid : Nat)
    (a b now : DateTime) (fuel : Nat) (db2 : Db) (nid2 : Nat)
    (L : List Event)
    (h : generate_instances db nid eid a b now fuel = ((db2, nid2), .ok L)) :
    generate_instances db2 nid2 eid a b now fuel = ((db2, nid2), .ok []) := by
  unfold generate_instances at h ⊢
  rcases ht : findEvent db eid with _ | t
  · rw [ht] at h
    exact absurd (congrArg (fun q => q.2) h) (by simp)
  · rw [ht] at h
    simp only at h
    split at h
    next => exact absurd (congrArg (fun q => q.2) h) (by simp)
    next hrec =>
      split at h
      next => exact absurd (congrArg (fun q => q.2) h) (by simp)
      next hpar =>
        unfold generateFromTemplate at h
        split at h
        next dbF crR nidF hm =>
          have hdb : dbF = db2 := congrArg (fun q => q.1.1) h
          have hnid : nidF = nid2 := congrArg (fun q => q.1.2) h
          rw [hdb, hnid] at hm
          obtain ⟨s, hs⟩ := matLoop_grows t eid (effectiveEnd t b) now fuel a
            db nid db2 crR nid2 hm
          have ht2 : findEvent db2 eid = some t := by
            rw [hs]
            exact find?_append_left s ht
          rw [ht2]
          simp only
          rw [if_neg hrec, if_neg hpar]
          unfold generateFromTemplate
          rw [matLoop_idem t eid (effectiveEnd t b) now fuel a db nid
            db2 crR nid2 hm]
        next => exact absurd (congrArg (fun q => q.2) h) (by simp)

/-- A `generate_instances` call never takes a session with at most one
instance per `(parent, event_time)` key to one with a duplicate. -/
theorem generate_instances_pairCount (db : Db) (nid eid : Nat)
    (a b now : DateTime) (fuel : Nat) (p : Nat) (ts : DateTime)
    (h : pairCount db p ts ≤ 1) :
    pairCount (generate_instances db nid eid a b now fuel).1.1 p ts ≤ 1 := by
  rcases hr : generate_instances db nid eid a b now fuel with ⟨⟨db2, nid2⟩, res⟩
  rcases res with e | L
  · have hst := generate_instances_error_state db nid eid a b now fuel
      (db2, nid2) e hr
    have hdb : db2 = db := congrArg (fun q => q.1) hst
    dsimp only
    rw [hdb]
    exact h
  · dsimp only
    unfold generate_instances at hr
    rcases ht : findEvent db eid with _ | t
    · rw [ht] at hr
      exact absurd (congrArg (fun q => q.2) hr) (by simp)
    · rw [ht] at hr
      simp only at hr
      split at hr
      next => exact absurd (congrArg (fun q => q.2) hr) (by simp)
      next =>
        split at hr
        next => exact absurd (congrArg (fun q => q.2) hr) (by simp)
        next =>
          unfold generateFromTemplate at hr
          split at hr
          next dbF crR nidF hm =>
            have hdb : dbF = db2 := congrArg (fun q => q.1.1) hr
            rw [hdb] at hm
            exact matLoop_pairCount t eid (effectiveEnd t b) now p ts fuel a
              db nid db2 crR nidF hm h
          next => exact absurd (congrArg (fun q => q.2) hr) (by simp)

/-! ### Claim C1 -/

/-- C1: materialization is idempotent.  Calling `generate_instances` twice
with the same arguments leaves the session exactly as one call does; when
the first call succeeds the second succeeds reporting zero created
instances; and a call never introduces a duplicate `(parent, event_time)`
key into a session that had none. -/
theorem c1_materialize_idempotent (db : Db) (nid eid : Nat)
    (a b now : DateTime) (fuel : Nat) :
    (generate_instances (generate_instances db nid eid a b now fuel).1.1
        (generate_instances db nid eid a b now fuel).1.2 eid a b now fuel).1 =
      (generate_instances db nid eid a b now fuel).1 ∧
    (∀ L, (generate_instances db nid eid a b now fuel).2 = .ok L →
      (generate_instances (generate_instances db nid eid a b now fuel).1.1
          (generate_instances db nid eid a b now fuel).1.2 eid a b now
          fuel).2 = .ok []) ∧
    (∀ p ts, pairCount db p ts ≤ 1 →
      pairCount (generate_instances db nid eid a b now fuel).1.1 p ts ≤ 1) := by
  refine ⟨?_, ?_, ?_⟩
  · rcases hr : generate_instances db nid eid a b now fuel with ⟨⟨db2, nid2⟩, res⟩
    rcases res with e | L
    · have hst := generate_instances_error_state db nid eid a b now fuel
        (db2, nid2) e hr
      have hdb : db2 = db := congrArg (fun q => q.1) hst
      have hnid : nid2 = nid := congrArg (fun q => q.2) hst
      dsimp only
      rw [hdb, hnid, hr]
      exact hst
    · dsimp only
      rw [generate_instances_idem_ok db nid eid a b now fuel db2 nid2 L hr]
  · intro L hL
    rcases hr : generate_instances db nid eid a b now fuel with ⟨⟨db2, nid2⟩, res⟩
    rw [hr] at hL
    dsimp only at hL
    subst hL
    dsimp only
    rw [generate_instances_idem_ok db nid eid a b now fuel db2 nid2 L hr]
  · intro p ts h
    exact generate_instances_pairCount db nid eid a b now fuel p ts h

/-- A concrete daily template for exercising idempotent materialization. -/
def dailyTemplate : Event :=
  { id := 1
    user_id := 3
    description := "water plants"
    event_time := ⟨2025, 1, 1, 9, 0, 0⟩
    is_message_sent := false
    is_confirmed := false
    is_recurring := true
    recurrence_frequency := some .daily
    recurrence_interval := some 1
    recurrence_end_date := none
    recurrence_days_of_week := none
    parent_event_id := none
    created_at := ⟨2025, 1, 1, 0, 0, 0⟩
    updated_at := ⟨2025, 1, 1, 0, 0, 0⟩ }

/-- C1 witness: a concrete first call creates one instance; the immediate
second call creates none. -/
theorem c1_materialize_idempotent_witness :
    (generate_instances
        (generate_instances [dailyTemplate] 2 1 ⟨2025, 1, 1, 0, 0, 0⟩
          ⟨2025, 1, 1, 12, 0, 0⟩ ⟨2025, 1, 1, 0, 0, 0⟩ 5).1.1
        (generate_instances [dailyTemplate] 2 1 ⟨2025, 1, 1, 0, 0, 0⟩
          ⟨2025, 1, 1, 12, 0, 0⟩ ⟨2025, 1, 1, 0, 0, 0⟩ 5).1.2 1
        ⟨2025, 1, 1, 0, 0, 0⟩ ⟨2025, 1, 1, 12, 0, 0⟩ ⟨2025, 1, 1, 0, 0, 0⟩
        5).2 = .ok [] :=
  (c1_materialize_idempotent [dailyTemplate] 2 1 ⟨2025, 1, 1, 0, 0, 0⟩
      ⟨2025, 1, 1, 12, 0, 0⟩ ⟨2025, 1, 1, 0, 0, 0⟩ 5).2.1
    [mkInstance 2 dailyTemplate 1 ⟨2025, 1, 1, 9, 0, 0⟩ ⟨2025, 1, 1, 0, 0, 0⟩]
    rfl

/-! ### Claim C6 -/

/-- Changing `recurrence_interval` changes nothing in the enumeration of a
weekly template: neither the match decision nor the one-day cursor step
reads it. -/
theorem enumLoop_weekly_interval_irrelevant (t : Event)
    (hf : t.recurrence_frequency = some .weekly) (k : Option Nat)
    (endD : DateTime) :
    ∀ fuel cur,
      enumLoop { t with recurrence_interval := k } endD fuel cur =
        enumLoop t endD fuel cur := by
  intro fuel
  induction fuel with
  | zero => intro cur; rfl
  | succ f ih =>
      intro cur
      rw [enumLoop, enumLoop]
      have hsc : ∀ c, shouldCreate { t with recurrence_interval := k } c =
          shouldCreate t c := by
        intro c
        simp [shouldCreate, hf]
      have hst : ∀ c, stepCursor { t with recurrence_interval := k } c =
          stepCursor t c := by
        intro c
        simp [stepCursor, hf]
      have hit : ∀ c, instanceTime { t with recurrence_interval := k } c =
          instanceTime t c := by
        intro c
        simp [instanceTime]
      simp only [hsc, hst, hit, ih]

/-- The weekly template of the concrete scenario: days-of-week "0,5"
(Monday and Saturday), anchored Wednesday 2025-01-01 at 09:00. -/
def weeklyTemplate : Event :=
  { id := 1
    user_id := 7
    description := "gym"
    event_time := ⟨2025, 1, 1, 9, 0, 0⟩
    is_message_sent := false
    is_confirmed := false
    is_recurring := true
    recurrence_frequency := some .weekly
    recurrence_interval := some 1
    recurrence_end_date := none
    recurrence_days_of_week := some "0,5"
    parent_event_id := none
    created_at := ⟨2025, 1, 1, 0, 0, 0⟩
    updated_at := ⟨2025, 1, 1, 0, 0, 0⟩ }

/-- C6: weekly recurrence steps the cursor by exactly one day and never
applies the interval field; a cursor date matches exactly when its weekday
is in `daysOfWeek` when that set is given (non-empty), and otherwise when
its weekday equals the anchor's; and the concrete weekly template with
days {0, 5} materialized over the 14-day window 2025-01-01 .. 2025-01-14
(a Wednesday anchor) creates exactly 4 instances -- Sat Jan 4, Mon Jan 6,
Sat Jan 11, Mon Jan 13 -- each at the anchor's time-of-day 09:00. -/
theorem c6_weekly_contract (t : Event) (a b : DateTime) (fuel : Nat)
    (hf : t.recurrence_frequency = some .weekly) :
    (∀ k : Option Nat,
      enum_instances { t with recurrence_interval := k } a b fuel =
        enum_instances t a b fuel) ∧
    (∀ cur, stepCursor t cur = .ok (addDays cur 1)) ∧
    (∀ cur, shouldCreate t cur =
      (if t.recurrence_days_of_week.getD "" ≠ "" then
        (parseDaysOfWeek (t.recurrence_days_of_week.getD "")).contains
          (pyWeekday cur)
      else pyWeekday cur == pyWeekday t.event_time)) ∧
    (generate_instances [weeklyTemplate] 2 1 ⟨2025, 1, 1, 0, 0, 0⟩
        ⟨2025, 1, 14, 0, 0, 0⟩ ⟨2025, 1, 1, 0, 0, 0⟩ 16).2 =
      .ok [mkInstance 2 weeklyTemplate 1 ⟨2025, 1, 4, 9, 0, 0⟩ ⟨2025, 1, 1, 0, 0, 0⟩,
           mkInstance 3 weeklyTemplate 1 ⟨2025, 1, 6, 9, 0, 0⟩ ⟨2025, 1, 1, 0, 0, 0⟩,
           mkInstance 4 weeklyTemplate 1 ⟨2025, 1, 11, 9, 0, 0⟩ ⟨2025, 1, 1, 0, 0, 0⟩,
           mkInstance 5 weeklyTemplate 1 ⟨2025, 1, 13, 9, 0, 0⟩ ⟨2025, 1, 1, 0, 0, 0⟩] := by
  refine ⟨?_, ?_, ?_, ?_⟩
  · intro k
    unfold enum_instances
    have heff : effectiveEnd { t with recurrence_interval := k } b =
        effectiveEnd t b := by
      simp [effectiveEnd]
    rw [heff, enumLoop_weekly_interval_irrelevant t hf k]
  · intro cur
    rw [stepCursor, hf]
  · intro cur
    rw [shouldCreate, hf]
  · rfl

/-- C6 witness: the concrete weekly scenario, with the interval-irrelevance
part instantiated at interval 4. -/
theorem c6_weekly_contract_witness :
    enum_instances { weeklyTemplate with recurrence_interval := some 4 }
        ⟨2025, 1, 1, 0, 0, 0⟩ ⟨2025, 1, 14, 0, 0, 0⟩ 16 =
      enum_instances weeklyTemplate ⟨2025, 1, 1, 0, 0, 0⟩
        ⟨2025, 1, 14, 0, 0, 0⟩ 16 ∧
    (generate_instances [weeklyTemplate] 2 1 ⟨2025, 1, 1, 0, 0, 0⟩
        ⟨2025, 1, 14, 0, 0, 0⟩ ⟨2025, 1, 1, 0, 0, 0⟩ 16).2 =
      .ok [mkInstance 2 weeklyTemplate 1 ⟨2025, 1, 4, 9, 0, 0⟩ ⟨2025, 1, 1, 0, 0, 0⟩,
           mkInstance 3 weeklyTemplate 1 ⟨2025, 1, 6, 9, 0, 0⟩ ⟨2025, 1, 1, 0, 0, 0⟩,
           mkInstance 4 weeklyTemplate 1 ⟨2025, 1, 11, 9, 0, 0⟩ ⟨2025, 1, 1, 0, 0, 0⟩,
           mkInstance 5 weeklyTemplate 1 ⟨2025, 1, 13, 9, 0, 0⟩ ⟨2025, 1, 1, 0, 0, 0⟩] :=
  ⟨(c6_weekly_contract weeklyTemplate ⟨2025, 1, 1, 0, 0, 0⟩
      ⟨2025, 1, 14, 0, 0, 0⟩ 16 rfl).1 (some 4),
   (c6_weekly_contract weeklyTemplate ⟨2025, 1, 1, 0, 0, 0⟩
      ⟨2025, 1, 14, 0, 0, 0⟩ 16 rfl).2.2.2⟩

/-! ### Claim C5 -/

/-- A daily template with interval 2, anchored at 08:00. -/
def everyTwoDaysTemplate : Event :=
  { id := 1
    user_id := 3
    description := "laundry"
    event_time := ⟨2025, 1, 1, 8, 0, 0⟩
    is_message_sent := false
    is_confirmed := false
    is_recurring := true
    recurrence_frequency := some .daily
    recurrence_interval := some 2
    recurrence_end_date := none
    recurrence_days_of_week := none
    parent_event_id := none
    created_at := ⟨2025, 1, 1, 0, 0, 0⟩
    updated_at := ⟨2025, 1, 1, 0, 0, 0⟩ }

/-- C5 counterexample: for the every-two-days template, splitting the
window [Jan 1 00:00, Jan 4 00:00] into the disjoint consecutive windows
[Jan 1 00:00, Jan 2 00:00] and [Jan 2 00:00:01, Jan 4 00:00] changes the
enumerated set: the cursor restarts at the second window's start, so the
union gains Jan 2 08:00 (absent from the whole-window enumeration) and
loses Jan 3 08:00 (present in it). -/
theorem c5_window_split_counterexample :
    enum_instances everyTwoDaysTemplate ⟨2025, 1, 1, 0, 0, 0⟩
        ⟨2025, 1, 4, 0, 0, 0⟩ 10 =
      .ok [⟨2025, 1, 1, 8, 0, 0⟩, ⟨2025, 1, 3, 8, 0, 0⟩] ∧
    enum_instances everyTwoDaysTemplate ⟨2025, 1, 1, 0, 0, 0⟩
        ⟨2025, 1, 2, 0, 0, 0⟩ 10 =
      .ok [⟨2025, 1, 1, 8, 0, 0⟩] ∧
    enum_instances everyTwoDaysTemplate ⟨2025, 1, 2, 0, 0, 1⟩
        ⟨2025, 1, 4, 0, 0, 0⟩ 10 =
      .ok [⟨2025, 1, 2, 8, 0, 0⟩] ∧
    (⟨2025, 1, 2, 8, 0, 0⟩ : DateTime) ∈
      ([⟨2025, 1, 1, 8, 0, 0⟩] ++ [⟨2025, 1, 2, 8, 0, 0⟩] : List DateTime) ∧
    (⟨2025, 1, 2, 8, 0, 0⟩ : DateTime) ∉
      ([⟨2025, 1, 1, 8, 0, 0⟩, ⟨2025, 1, 3, 8, 0, 0⟩] : List DateTime) ∧
    (⟨2025, 1, 3, 8, 0, 0⟩ : DateTime) ∈
      ([⟨2025, 1, 1, 8, 0, 0⟩, ⟨2025, 1, 3, 8, 0, 0⟩] : List DateTime) ∧
    (⟨2025, 1, 3, 8, 0, 0⟩ : DateTime) ∉
      ([⟨2025, 1, 1, 8, 0, 0⟩] ++ [⟨2025, 1, 2, 8, 0, 0⟩] : List DateTime) := by
  refine ⟨rfl, rfl, rfl, ?_, ?_, ?_, ?_⟩ <;> decide

/-- The candidate timestamps a one-day-step cursor produces over the dates
`a, a+1, ..., a+n`. -/
def spanCandidates (t : Event) (a : DateTime) (n : Nat) : List DateTime :=
  (List.range (n + 1)).filterMap (fun i =>
    if shouldCreate t (addDays a i) then some (instanceTime t (addDays a i))
    else none)

theorem spanCandidates_succ (t : Event) (a : DateTime) (n : Nat) :
    spanCandidates t a (n + 1) =
      (if shouldCreate t a then [instanceTime t a] else []) ++
        spanCandidates t (addDays a 1) n := by
  unfold spanCandidates
  rw [List.range_succ_eq_map, List.filterMap_cons, List.filterMap_map]
  have hfun : ((fun i => if shouldCreate t (addDays a i) then
          some (instanceTime t (addDays a i)) else none) ∘ Nat.succ) =
      (fun i => if shouldCreate t (addDays (addDays a 1) i) then
          some (instanceTime t (addDays (addDays a 1) i)) else none) := by
    funext i
    simp only [Function.comp]
    have h1 : addDays a (Nat.succ i) = addDays (addDays a 1) i := by
      rw [show Nat.succ i = 1 + i by omega, addDays_add]
    rw [h1]
  rw [hfun]
  by_cases hsc : shouldCreate t a <;> simp [addDays, hsc]

theorem spanCandidates_split (t : Event) (a : DateTime) (k1 k2 : Nat) :
    spanCandidates t a (k1 + k2 + 1) =
      spanCandidates t a k1 ++ spanCandidates t (addDays a (k1 + 1)) k2 := by
  unfold spanCandidates
  have h1 : k1 + k2 + 1 + 1 = (k1 + 1) + (k2 + 1) := by omega
  rw [h1, List.range_add, List.filterMap_append, List.filterMap_map]
  congr 1
  have hfun : ((fun i => if shouldCreate t (addDays a i) then
          some (instanceTime t (addDays a i)) else none) ∘
        (fun x => (k1 + 1) + x)) =
      (fun i => if shouldCreate t (addDays (addDays a (k1 + 1)) i) then
          some (instanceTime t (addDays (addDays a (k1 + 1)) i)) else none) := by
    funext i
    simp only [Function.comp]
    rw [addDays_add]
  rw [hfun]

/-- Over a window reaching exactly `n` days past the cursor start, a
template whose cursor step is one day enumerates precisely the matching
dates `a, a+1, ..., a+n`, each at the anchor's time-of-day. -/
theorem enumLoop_step1 (t : Event)
    (hstep : ∀ cur, stepCursor t cur = .ok (addDays cur 1)) :
    ∀ n a, enumLoop t (addDays a n) (n + 2) a = .ok (spanCandidates t a n) := by
  intro n
  induction n with
  | zero =>
      intro a
      show enumLoop t a 2 a = .ok (spanCandidates t a 0)
      rw [enumLoop, if_pos (DateTime.leb_refl a), hstep]
      dsimp only
      rw [enumLoop]
      have hne : (addDays a 1).leb a = false := by
        unfold DateTime.leb
        rw [addDays_ltb a 0]
        rfl
      rw [if_neg (by simp [hne])]
      dsimp only
      have hr1 : List.range 1 = [0] := rfl
      by_cases hsc : shouldCreate t a <;>
        simp [spanCandidates, addDays, hsc, hr1]
  | succ k ih =>
      intro a
      have hle : a.leb (addDays a (k + 1)) = true := by
        have := addDays_leb_of_le a (Nat.zero_le (k + 1))
        simpa [addDays] using this
      rw [enumLoop, if_pos hle, hstep]
      dsimp only
      have hend : addDays a (k + 1) = addDays (addDays a 1) k := by
        rw [show k + 1 = 1 + k by omega, addDays_add]
      rw [hend, ih (addDays a 1)]
      dsimp only
      rw [spanCandidates_succ]

/-- C5 (amended): splitting a window restarts the cursor at the second
window's start, so in general the split enumerations differ from the
whole-window enumeration (see the counterexample); the no-duplication /
no-gap property does hold when the cursor steps one day (weekly, or daily
with interval 1, for a template without an end date) and the split is
day-aligned: over dates `a .. a+k1` and `a+(k1+1) .. a+(k1+k2+1)` the two
enumerations concatenate exactly to the enumeration over
`a .. a+(k1+k2+1)`. -/
theorem c5_window_split_amended (t : Event)
    (hstep : ∀ cur, stepCursor t cur = .ok (addDays cur 1))
    (hend : t.recurrence_end_date = none) (a : DateTime) (k1 k2 : Nat) :
    enum_instances t a (addDays a (k1 + k2 + 1)) (k1 + k2 + 3) =
      .ok (spanCandidates t a k1 ++ spanCandidates t (addDays a (k1 + 1)) k2) ∧
    enum_instances t a (addDays a k1) (k1 + 2) = .ok (spanCandidates t a k1) ∧
    enum_instances t (addDays a (k1 + 1)) (addDays a (k1 + k2 + 1)) (k2 + 2) =
      .ok (spanCandidates t (addDays a (k1 + 1)) k2) := by
  have heff : ∀ b, effectiveEnd t b = b := by
    intro b
    simp [effectiveEnd, hend]
  refine ⟨?_, ?_, ?_⟩
  · rw [enum_instances, heff]
    have h3 : k1 + k2 + 3 = (k1 + k2 + 1) + 2 := by omega
    rw [h3, enumLoop_step1 t hstep (k1 + k2 + 1) a, spanCandidates_split]
  · rw [enum_instances, heff]
    exact enumLoop_step1 t hstep k1 a
  · rw [enum_instances, heff]
    have hsplit : addDays a (k1 + k2 + 1) = addDays (addDays a (k1 + 1)) k2 := by
      rw [show k1 + k2 + 1 = (k1 + 1) + k2 by omega, addDays_add]
    rw [hsplit]
    exact enumLoop_step1 t hstep k2 (addDays a (k1 + 1))

/-- C5 amended witness: the daily interval-1 template over the 4-day window
Jan 1 .. Jan 4 2025, split after Jan 2. -/
theorem c5_window_split_amended_witness :
    enum_instances dailyTemplate ⟨2025, 1, 1, 0, 0, 0⟩
        (addDays ⟨2025, 1, 1, 0, 0, 0⟩ 3) 5 =
      .ok (spanCandidates dailyTemplate ⟨2025, 1, 1, 0, 0, 0⟩ 1 ++
        spanCandidates dailyTemplate (addDays ⟨2025, 1, 1, 0, 0, 0⟩ 2) 1) :=
  (c5_window_split_amended dailyTemplate (fun cur => rfl) rfl
    ⟨2025, 1, 1, 0, 0, 0⟩ 1 1).1

/-! ### Claim C8 -/

/-- A successful `find?` survives filtering, provided the found element
passes the filter (order is preserved and only non-matching or later
elements are dropped). -/
theorem find?_filter_of_find? {α : Type} {q p : α → Bool} {l : List α}
    {a : α} (h : l.find? q = some a) (hp : p a = true) :
    (l.filter p).find? q = some a := by
  induction l with
  | nil => simp at h
  | cons x xs ih =>
      by_cases hq : q x
      · rw [List.find?_cons_of_pos _ hq] at h
        injection h with h1
        subst h1
        rw [List.filter_cons_of_pos hp]
        exact List.find?_cons_of_pos _ hq
      · rw [List.find?_cons_of_neg _ hq] at h
        by_cases hpx : p x
        · rw [List.filter_cons_of_pos hpx, List.find?_cons_of_neg _ hq]
          exact ih h
        · rw [List.filter_cons_of_neg hpx]
          exact ih h

/-- C8: `update_reminder` deletes exactly the template's generated
instances with event time strictly after the update moment, keeps every
past instance unchanged, replaces the template's fields with the supplied
values, and a subsequent materialization call reads the updated template
(spec-modelled: `delete_future_instances` and `update_recurring_event` are
absent from the repository's `events.py`). -/
theorem c8_update_reminder_contract (db : Db) (tid : Nat)
    (description : Option String) (event_time : Option DateTime)
    (freq : Option Freq) (days : Option String) (now : DateTime) (t : Event)
    (ht : findEvent db tid = some t) (hpar : t.parent_event_id = none)
    (hrec : t.is_recurring = true) :
    (∀ e ∈ db, e.parent_event_id = some tid → now.ltb e.event_time = true →
      e.id ≠ tid →
      e ∉ (update_reminder db tid description event_time freq days now).1) ∧
    (∀ e ∈ db, ¬(e.parent_event_id = some tid ∧ now.ltb e.event_time = true) →
      e.id ≠ tid →
      e ∈ (update_reminder db tid description event_time freq days now).1) ∧
    (findEvent (update_reminder db tid description event_time freq days now).1
        tid = some (applyTemplateUpdates t description event_time freq days)) ∧
    ((update_reminder db tid description event_time freq days now).2 =
      .ok (applyTemplateUpdates t description event_time freq days)) ∧
    (∀ nid a b now2 fuel,
      generate_instances
          (update_reminder db tid description event_time freq days now).1
          nid tid a b now2 fuel =
        generateFromTemplate
          (applyTemplateUpdates t description event_time freq days)
          (update_reminder db tid description event_time freq days now).1
          nid tid a b now2 fuel) := by
  have hid : t.id = tid := by
    have := List.find?_some ht
    simpa using this
  have hkeep : (fun e : Event =>
      !(e.parent_event_id == some tid && now.ltb e.event_time)) t = true := by
    simp [hpar]
  have ht1 : ((delete_future_instances db tid now).1).find?
      (fun e => e.id == tid) = some t := by
    unfold delete_future_instances
    exact find?_filter_of_find? ht hkeep
  have hupd : update_reminder db tid description event_time freq days now =
      ((delete_future_instances db tid now).1.map (fun x =>
        if x.id == tid then
          applyTemplateUpdates t description event_time freq days
        else x),
       .ok (applyTemplateUpdates t description event_time freq days)) := by
    unfold update_reminder update_recurring_event findEvent
    rw [ht1]
  have hgid : ∀ x : Event,
      ((fun x : Event => if x.id == tid then
          applyTemplateUpdates t description event_time freq days
        else x) x).id = x.id := by
    intro x
    by_cases hx : x.id = tid
    · simp [hx, applyTemplateUpdates, hid]
    · simp [hx]
  have hfind : findEvent
      (update_reminder db tid description event_time freq days now).1 tid =
      some (applyTemplateUpdates t description event_time freq days) := by
    rw [hupd]
    show ((delete_future_instances db tid now).1.map _).find? _ = _
    rw [List.find?_map]
    have hcomp : ((fun e : Event => e.id == tid) ∘ (fun x : Event =>
        if x.id == tid then
          applyTemplateUpdates t description event_time freq days
        else x)) = (fun e : Event => e.id == tid) := by
      funext x
      simp only [Function.comp]
      rw [hgid x]
    rw [hcomp, ht1]
    simp [hid]
  refine ⟨?_, ?_, hfind, ?_, ?_⟩
  · intro e he hp hfut hne hmem
    rw [hupd] at hmem
    rw [List.mem_map] at hmem
    obtain ⟨x, hx, hgx⟩ := hmem
    by_cases hxid : x.id = tid
    · rw [if_pos (by simp [hxid])] at hgx
      have : e.id = tid := by
        rw [← hgx]
        simp [applyTemplateUpdates, hid]
      exact hne this
    · rw [if_neg (by simp [hxid])] at hgx
      subst hgx
      unfold delete_future_instances at hx
      rw [List.mem_filter] at hx
      have := hx.2
      simp only [Bool.not_eq_true', Bool.and_eq_false_iff] at this
      rcases this with h1 | h1
      · rw [hp] at h1
        simp at h1
      · rw [hfut] at h1
        simp at h1
  · intro e he hnf hne
    rw [hupd, List.mem_map]
    refine ⟨e, ?_, by simp [hne]⟩
    unfold delete_future_instances
    rw [List.mem_filter]
    refine ⟨he, ?_⟩
    simp only [Bool.not_eq_true', Bool.and_eq_false_iff]
    rcases Decidable.not_and_iff_or_not.mp hnf with h1 | h1
    · left
      simp only [beq_eq_false_iff_ne, ne_eq]
      exact h1
    · right
      cases hb : now.ltb e.event_time
      · rfl
      · exact absurd hb h1
  · rw [hupd]
  · intro nid a b now2 fuel
    unfold generate_instances
    rw [hfind]
    have hrec' : (applyTemplateUpdates t description event_time freq
        days).is_recurring = true := by
      simp [applyTemplateUpdates, hrec]
    have hpar' : (applyTemplateUpdates t description event_time freq
        days).parent_event_id = none := by
      simp [applyTemplateUpdates, hpar]
    simp only [hrec', hpar', Bool.not_true, Option.isSome_none,
      Bool.false_eq_true, if_false]

/-- A weekly template for exercising `update_reminder`. -/
def updateTemplate : Event :=
  { id := 1
    user_id := 5
    description := "standup"
    event_time := ⟨2025, 1, 1, 9, 0, 0⟩
    is_message_sent := false
    is_confirmed := false
    is_recurring := true
    recurrence_frequency := some .weekly
    recurrence_interval := some 1
    recurrence_end_date := none
    recurrence_days_of_week := some "0"
    parent_event_id := none
    created_at := ⟨2025, 1, 1, 0, 0, 0⟩
    updated_at := ⟨2025, 1, 1, 0, 0, 0⟩ }

/-- A generated instance of `updateTemplate` in the past of the update
moment 2025-01-10 (unconfirmed, so deletion must still spare it). -/
def pastInstance : Event :=
  { id := 2
    user_id := 5
    description := "standup"
    event_time := ⟨2025, 1, 6, 9, 0, 0⟩
    is_message_sent := true
    is_confirmed := false
    is_recurring := false
    recurrence_frequency := none
    recurrence_interval := some 1
    recurrence_end_date := none
    recurrence_days_of_week := none
    parent_event_id := some 1
    created_at := ⟨2025, 1, 1, 0, 0, 0⟩
    updated_at := ⟨2025, 1, 1, 0, 0, 0⟩ }

/-- A generated instance of `updateTemplate` in the future of the update
moment 2025-01-10. -/
def futureInstance : Event :=
  { id := 3
    user_id := 5
    description := "standup"
    event_time := ⟨2025, 1, 20, 9, 0, 0⟩
    is_message_sent := false
    is_confirmed := false
    is_recurring := false
    recurrence_frequency := none
    recurrence_interval := some 1
    recurrence_end_date := none
    recurrence_days_of_week := none
    parent_event_id := some 1
    created_at := ⟨2025, 1, 1, 0, 0, 0⟩
    updated_at := ⟨2025, 1, 1, 0, 0, 0⟩ }

/-- C8 witness: updating the concrete template at 2025-01-10 removes the
future instance, keeps the past one, and reports the updated template. -/
theorem c8_update_reminder_contract_witness :
    futureInstance ∉
      (update_reminder [updateTemplate, pastInstance, futureInstance] 1
        (some "daily standup") none (some .daily) none
        ⟨2025, 1, 10, 0, 0, 0⟩).1 ∧
    pastInstance ∈
      (update_reminder [updateTemplate, pastInstance, futureInstance] 1
        (some "daily standup") none (some .daily) none
        ⟨2025, 1, 10, 0, 0, 0⟩).1 ∧
    (update_reminder [updateTemplate, pastInstance, futureInstance] 1
        (some "daily standup") none (some .daily) none
        ⟨2025, 1, 10, 0, 0, 0⟩).2 =
      .ok (applyTemplateUpdates updateTemplate (some "daily standup") none
        (some .daily) none) :=
  ⟨(c8_update_reminder_contract [updateTemplate, pastInstance, futureInstance]
      1 (some "daily standup") none (some .daily) none ⟨2025, 1, 10, 0, 0, 0⟩
      updateTemplate rfl rfl rfl).1 futureInstance (by decide) rfl (by decide)
      (by decide),
   (c8_update_reminder_contract [updateTemplate, pastInstance, futureInstance]
      1 (some "daily standup") none (some .daily) none ⟨2025, 1, 10, 0, 0, 0⟩
      updateTemplate rfl rfl rfl).2.1 pastInstance (by decide)
      (by decide) (by decide),
   (c8_update_reminder_contract [updateTemplate, pastInstance, futureInstance]
      1 (some "daily standup") none (some .daily) none ⟨2025, 1, 10, 0, 0, 0⟩
      updateTemplate rfl rfl rfl).2.2.2.1⟩
